import Mathlib

/-!
Verification of the Boulder `crl/updater` package (`crl/updater/updater.go`).

The Go code is shallowly embedded: `time.Time` and `time.Duration` values are
modelled as `Int` nanosecond counts (a `time.Time` is the count of nanoseconds
since Go's zero time, January 1 of year 1 UTC; a `time.Duration` is a signed
64-bit nanosecond count).  Go's truncated integer division and remainder
(`/`, `%` on `int64`) are `Int.tdiv` and `Int.tmod`.  `time.Time.Sub`
saturates at the bounds of `time.Duration` (±(2^63-1), -2^63), which the
embedding reproduces exactly, since several claims hinge on it.
-/

/-- `2^63 - 1` ns, the largest value of Go's `time.Duration` (`maxDuration`
in the Go time package). -/
def maxDuration : Int := 9223372036854775807

/-- `-2^63` ns, the smallest value of Go's `time.Duration`. -/
def minDuration : Int := -9223372036854775808

/-- Go's `t.Sub(u)` for wall-clock times: the exact difference, saturated to
the representable `time.Duration` range. -/
def goSub (t u : Int) : Int :=
  if t - u > maxDuration then maxDuration
  else if t - u < minDuration then minDuration
  else t - u

/-- Nanoseconds in one hour (`time.Hour`). -/
def nsPerHour : Int := 3600000000000

/-- The configuration-derived fields of the Go `crlUpdater` struct
(the RPC clients, metrics and logger fields are modelled separately). -/
structure CrlUpdaterConfig where
  numShards : Int
  lookbackPeriod : Int
  lookforwardPeriod : Int
  updatePeriod : Int
  updateOffset : Int
  maxParallelism : Int
deriving Repr, DecidableEq

/-- Embedding of `NewUpdater` (updater.go lines 42-133): the validation checks
and the derivation of `lookbackPeriod` and `lookforwardPeriod`, in Go `int64`
nanosecond arithmetic (exact here; all spec-relevant inputs are far below the
`int64` range). -/
def newUpdater (numShards certLifetime updatePeriod updateOffset maxParallelism : Int) :
    Except String CrlUpdaterConfig :=
  if numShards < 1 then .error "must have positive number of shards"
  else if 7 * 24 * nsPerHour ≤ updatePeriod then .error "must update CRLs at least every 7 days"
  else if updatePeriod ≤ updateOffset then .error "update offset must be less than period"
  else
    let lookbackPeriod := 4 * updatePeriod
    let tentativeShardWidth := Int.tdiv (lookbackPeriod + certLifetime) numShards
    let lookforwardPeriod := certLifetime + 4 * tentativeShardWidth
    let window := lookbackPeriod + lookforwardPeriod
    let offset := Int.tmod window numShards
    let lookforwardPeriod :=
      if offset ≠ 0 then lookforwardPeriod + (numShards - offset) else lookforwardPeriod
    let maxParallelism := if maxParallelism ≤ 0 then 1 else maxParallelism
    .ok ⟨numShards, lookbackPeriod, lookforwardPeriod, updatePeriod, updateOffset, maxParallelism⟩

/-- `windowWidth := cu.lookbackPeriod + cu.lookforwardPeriod` (line 437). -/
def windowWidth (cfg : CrlUpdaterConfig) : Int :=
  cfg.lookbackPeriod + cfg.lookforwardPeriod

/-- `atTimeOffset := atTime.Sub(time.Time{}).Nanoseconds() % windowWidth.Nanoseconds()`
(line 440).  Note the saturating `Sub` against the zero time. -/
def atTimeOffset (cfg : CrlUpdaterConfig) (atTime : Int) : Int :=
  Int.tmod (goSub atTime 0) (windowWidth cfg)

/-- `zeroStart := atTime.Add(-atTimeOffset)` (line 442). -/
def zeroStart (cfg : CrlUpdaterConfig) (atTime : Int) : Int :=
  atTime - atTimeOffset cfg atTime

/-- `shardWidth := windowWidth.Nanoseconds() / int64(cu.numShards)` (line 445). -/
def shardWidth (cfg : CrlUpdaterConfig) : Int :=
  Int.tdiv (windowWidth cfg) cfg.numShards

/-- `shardStart := zeroStart.Add(shardOffset)` with
`shardOffset := int64(shardIdx) * shardWidth` and the defensive
`shardIdx = shardIdx % cu.numShards` from line 434 (lines 448-450). -/
def preShardStart (cfg : CrlUpdaterConfig) (atTime shardIdx : Int) : Int :=
  zeroStart cfg atTime + Int.tmod shardIdx cfg.numShards * shardWidth cfg

/-- `shardEnd := shardStart.Add(shardWidth)` (line 452), before the
bring-into-window shift. -/
def preShardEnd (cfg : CrlUpdaterConfig) (atTime shardIdx : Int) : Int :=
  preShardStart cfg atTime shardIdx + shardWidth cfg

/-- Embedding of `getShardBoundaries` (lines 432-462): the pre-shift chunk,
shifted forward by one `windowWidth` when it lies entirely before
`atTime - lookbackPeriod` (`shardEnd.Before(atTime.Add(-cu.lookbackPeriod))`,
line 457). -/
def getShardBoundaries (cfg : CrlUpdaterConfig) (atTime shardIdx : Int) : Int × Int :=
  if preShardEnd cfg atTime shardIdx < atTime - cfg.lookbackPeriod then
    (preShardStart cfg atTime shardIdx + windowWidth cfg,
     preShardEnd cfg atTime shardIdx + windowWidth cfg)
  else
    (preShardStart cfg atTime shardIdx, preShardEnd cfg atTime shardIdx)

/-- The spec's shard-boundary algorithm (spec §4.1, steps 1-4), written from
the spec's words for comparison with the code: the anchor offset is the TRUE
`atTime_ns mod windowWidth_ns` ("the nanosecond count of atTime since the
zero of the time representation"), with no saturation. -/
def specShardBoundaries (cfg : CrlUpdaterConfig) (atTime shardIdx : Int) : Int × Int :=
  let w := windowWidth cfg
  let off := Int.tmod atTime w
  let zs := atTime - off
  let sw := shardWidth cfg
  let start := zs + Int.tmod shardIdx cfg.numShards * sw
  let stop := start + sw
  if stop < atTime - cfg.lookbackPeriod then (start + w, stop + w) else (start, stop)

/-- Non-empty intersection of the half-open intervals `[s, e)` and `[a, b)`. -/
def overlaps (s e a b : Int) : Prop :=
  max s a < min e b

instance (s e a b : Int) : Decidable (overlaps s e a b) := by
  unfold overlaps; infer_instance

/-- The configuration of spec §8 concrete scenario 1:
`numShards=10, updatePeriod=1h, certLifetime=90×24h, updateOffset=0`. -/
def cfg1 : CrlUpdaterConfig :=
  ⟨10, 14400000000000, 10892160000000000, 3600000000000, 0, 1⟩

/-- A constructor-valid configuration with a tiny (1ns) certificate lifetime:
`numShards=10, updatePeriod=1h, certLifetime=1ns, updateOffset=0`.  Its
lookback period exceeds its shard width. -/
def cfgB : CrlUpdaterConfig :=
  ⟨10, 14400000000000, 5760000000010, 3600000000000, 0, 1⟩

/-- Go's `t.UnixNano()`: nanoseconds since the Unix epoch, which lies
62135596800 s after Go's zero time (exact here; the Go value wraps outside
the years 1678-2262, which no claim depends on). -/
def unixNano (t : Int) : Int := t - 62135596800000000000

/-- The `sapb.GetRevokedCertsRequest` sent on the SA stream (lines 269-274). -/
structure GetRevokedCertsRequest where
  issuerNameID : Int
  expiresAfter : Int
  expiresBefore : Int
  revokedBefore : Int
deriving Repr, DecidableEq

/-- A frame of the CA `GenerateCRL` request stream: either the single
`capb.CRLMetadata` frame (lines 286-294) or an entry frame (lines 310-314). -/
inductive CAFrame (Entry : Type) where
  | metadata (issuerNameID thisUpdate shardIdx : Int)
  | entry (e : Entry)

/-- A frame of the storer `UploadCRL` request stream: either the single
`cspb.CRLMetadata` frame (lines 336-344) or a CRL-chunk frame (lines 362-366). -/
inductive CSFrame where
  | metadata (issuerNameID number shardIdx : Int)
  | chunk (bytes : List UInt8)

/-- An error returned by `tickShard`: either an error returned verbatim
(the `crl.Id` failure at line 258) or one wrapped by `fmt.Errorf` with the
name of the failing step. -/
inductive ShardErr (E : Type) where
  | raw (e : E)
  | step (name : String) (e : E)

/-- The behavior of the external collaborators during one `tickShard` run.
Each RPC operation's outcome is a field; `none` means success.  `saEntries`
are the entries yielded by successive `saStream.Recv` calls and `saTermErr`
the terminal `Recv` outcome (`none` = `io.EOF`); likewise `caChunks` and
`caTermErr` for the CA receive stream.  `idResult` is *modelled from the
spec*: `crl.Id(issuerNameID, crl.Number(atTime), shardIdx)` lives in the
`crl` package, outside the embedded source, so it is modelled as an abstract
fallible outcome ("Shard identity" in spec §3). -/
structure ShardEnv (E Entry : Type) where
  idResult : Except E Unit
  saOpenErr : Option E
  caOpenErr : Option E
  caMetaErr : Option E
  saEntries : List Entry
  saTermErr : Option E
  caEntryErr : Nat → Option E
  caCloseErr : Option E
  csOpenErr : Option E
  csMetaErr : Option E
  caChunks : List (List UInt8)
  caTermErr : Option E
  csChunkErr : Nat → Option E
  csCloseErr : Option E

/-- The observable outcome of one `tickShard` run: its return value, whether
the deferred metrics recording ran (and with which result label — the
histogram observation and counter increment of lines 261-264 are installed
only after `crl.Id` succeeds), which RPCs were issued, the frames sent on
each stream, whether the CA send side was half-closed, and the size and
hasher input of the success log line 376 (`crlHash.Sum(nil)` is the SHA-256
of exactly the bytes written to the hasher, so the logged hash is determined
by `loggedHashInput`). -/
structure ShardLog (E Entry : Type) where
  result : Except (ShardErr E) Unit
  metricsResult : Option String
  saRequest : Option GetRevokedCertsRequest
  caOpened : Bool
  csOpened : Bool
  caSent : List (CAFrame Entry)
  caClosedSend : Bool
  csSent : List CSFrame
  loggedSize : Option Nat
  loggedHashInput : Option (List UInt8)

/-- The SA→CA forward loop (lines 300-319): each received entry is sent to
the CA; a send failure aborts the loop.  Returns the entry frames
successfully sent and the first send error, if any.  `k` numbers the send
attempts so the environment can fail a specific one. -/
def forwardEntries {E Entry : Type} (sendErr : Nat → Option E) :
    Nat → List Entry → List (CAFrame Entry) × Option E
  | _, [] => ([], none)
  | k, e :: rest =>
    match sendErr k with
    | some err => ([], some err)
    | none =>
      let r := forwardEntries sendErr (k + 1) rest
      (CAFrame.entry e :: r.1, r.2)

/-- The CA→storer relay loop (lines 350-374): each received chunk is
forwarded to the storer and accumulated into the byte counter and the
hasher.  Returns the chunk frames successfully sent, the accumulated length
and hasher input, and the first send error, if any. -/
def relayChunks {E : Type} (sendErr : Nat → Option E) :
    Nat → List (List UInt8) → List CSFrame × Nat × List UInt8 × Option E
  | _, [] => ([], 0, [], none)
  | k, c :: rest =>
    match sendErr k with
    | some err => ([], 0, [], some err)
    | none =>
      let r := relayChunks sendErr (k + 1) rest
      (CSFrame.chunk c :: r.1, c.length + r.2.1, c ++ r.2.2.1, r.2.2.2)

/-- Embedding of `tickShard` (lines 254-385) over a `ShardEnv`: the exact
sequence of fallible steps and early returns of the Go function, producing
the observable `ShardLog`. -/
def tickShard {E Entry : Type} (cfg : CrlUpdaterConfig) (env : ShardEnv E Entry)
    (atTime issuerNameID shardIdx : Int) : ShardLog E Entry :=
  match env.idResult with
  | .error e =>
      { result := .error (.raw e), metricsResult := none, saRequest := none,
        caOpened := false, csOpened := false, caSent := [], caClosedSend := false,
        csSent := [], loggedSize := none, loggedHashInput := none }
  | .ok _ =>
    let bounds := getShardBoundaries cfg atTime shardIdx
    let req : GetRevokedCertsRequest :=
      { issuerNameID := issuerNameID, expiresAfter := unixNano bounds.1,
        expiresBefore := unixNano bounds.2, revokedBefore := unixNano atTime }
    match env.saOpenErr with
    | some e =>
        { result := .error (.step "connecting to SA" e), metricsResult := some "failed",
          saRequest := some req, caOpened := false, csOpened := false, caSent := [],
          caClosedSend := false, csSent := [], loggedSize := none, loggedHashInput := none }
    | none =>
    match env.caOpenErr with
    | some e =>
        { result := .error (.step "connecting to CA" e), metricsResult := some "failed",
          saRequest := some req, caOpened := true, csOpened := false, caSent := [],
          caClosedSend := false, csSent := [], loggedSize := none, loggedHashInput := none }
    | none =>
    match env.caMetaErr with
    | some e =>
        { result := .error (.step "sending CA metadata" e), metricsResult := some "failed",
          saRequest := some req, caOpened := true, csOpened := false, caSent := [],
          caClosedSend := false, csSent := [], loggedSize := none, loggedHashInput := none }
    | none =>
    match forwardEntries env.caEntryErr 0 env.saEntries with
    | (sent, some e) =>
        { result := .error (.step "sending entry to CA" e), metricsResult := some "failed",
          saRequest := some req, caOpened := true, csOpened := false,
          caSent := CAFrame.metadata issuerNameID (unixNano atTime) shardIdx :: sent,
          caClosedSend := false, csSent := [], loggedSize := none, loggedHashInput := none }
    | (sent, none) =>
    match env.saTermErr with
    | some e =>
        { result := .error (.step "retrieving entry from SA" e), metricsResult := some "failed",
          saRequest := some req, caOpened := true, csOpened := false,
          caSent := CAFrame.metadata issuerNameID (unixNano atTime) shardIdx :: sent,
          caClosedSend := false, csSent := [], loggedSize := none, loggedHashInput := none }
    | none =>
    match env.caCloseErr with
    | some e =>
        { result := .error (.step "closing CA request stream" e), metricsResult := some "failed",
          saRequest := some req, caOpened := true, csOpened := false,
          caSent := CAFrame.metadata issuerNameID (unixNano atTime) shardIdx :: sent,
          caClosedSend := false, csSent := [], loggedSize := none, loggedHashInput := none }
    | none =>
    match env.csOpenErr with
    | some e =>
        { result := .error (.step "connecting to CRLStorer" e), metricsResult := some "failed",
          saRequest := some req, caOpened := true, csOpened := true,
          caSent := CAFrame.metadata issuerNameID (unixNano atTime) shardIdx :: sent,
          caClosedSend := true, csSent := [], loggedSize := none, loggedHashInput := none }
    | none =>
    match env.csMetaErr with
    | some e =>
        { result := .error (.step "sending CRLStorer metadata" e), metricsResult := some "failed",
          saRequest := some req, caOpened := true, csOpened := true,
          caSent := CAFrame.metadata issuerNameID (unixNano atTime) shardIdx :: sent,
          caClosedSend := true, csSent := [], loggedSize := none, loggedHashInput := none }
    | none =>
    match relayChunks env.csChunkErr 0 env.caChunks with
    | (fs, _, _, some e) =>
        { result := .error (.step "uploading CRL bytes" e), metricsResult := some "failed",
          saRequest := some req, caOpened := true, csOpened := true,
          caSent := CAFrame.metadata issuerNameID (unixNano atTime) shardIdx :: sent,
          caClosedSend := true,
          csSent := CSFrame.metadata issuerNameID (unixNano atTime) shardIdx :: fs,
          loggedSize := none, loggedHashInput := none }
    | (fs, len, bytes, none) =>
    match env.caTermErr with
    | some e =>
        { result := .error (.step "receiving CRL bytes" e), metricsResult := some "failed",
          saRequest := some req, caOpened := true, csOpened := true,
          caSent := CAFrame.metadata issuerNameID (unixNano atTime) shardIdx :: sent,
          caClosedSend := true,
          csSent := CSFrame.metadata issuerNameID (unixNano atTime) shardIdx :: fs,
          loggedSize := none, loggedHashInput := none }
    | none =>
    match env.csCloseErr with
    | some e =>
        { result := .error (.step "closing CRLStorer upload stream" e),
          metricsResult := some "failed",
          saRequest := some req, caOpened := true, csOpened := true,
          caSent := CAFrame.metadata issuerNameID (unixNano atTime) shardIdx :: sent,
          caClosedSend := true,
          csSent := CSFrame.metadata issuerNameID (unixNano atTime) shardIdx :: fs,
          loggedSize := some len, loggedHashInput := some bytes }
    | none =>
        { result := .ok (), metricsResult := some "success",
          saRequest := some req, caOpened := true, csOpened := true,
          caSent := CAFrame.metadata issuerNameID (unixNano atTime) shardIdx :: sent,
          caClosedSend := true,
          csSent := CSFrame.metadata issuerNameID (unixNano atTime) shardIdx :: fs,
          loggedSize := some len, loggedHashInput := some bytes }

/-- All stream operations of one `tickShard` run succeed. -/
def allOpsSucceed {E Entry : Type} (env : ShardEnv E Entry) : Prop :=
  env.idResult = .ok () ∧ env.saOpenErr = none ∧ env.caOpenErr = none ∧
  env.caMetaErr = none ∧ env.saTermErr = none ∧ (∀ k, env.caEntryErr k = none) ∧
  env.caCloseErr = none ∧ env.csOpenErr = none ∧ env.csMetaErr = none ∧
  env.caTermErr = none ∧ (∀ k, env.csChunkErr k = none) ∧ env.csCloseErr = none

/-- A concrete all-success environment with two SA entries and two CA chunks. -/
def envSample : ShardEnv String Nat :=
  { idResult := .ok (), saOpenErr := none, caOpenErr := none, caMetaErr := none,
    saEntries := [5, 7], saTermErr := none, caEntryErr := fun _ => none,
    caCloseErr := none, csOpenErr := none, csMetaErr := none,
    caChunks := [[1, 2], [3]], caTermErr := none, csChunkErr := fun _ => none,
    csCloseErr := none }

/-- A concrete all-success environment with no SA entries and no CA chunks. -/
def envEmpty : ShardEnv String Nat :=
  { idResult := .ok (), saOpenErr := none, caOpenErr := none, caMetaErr := none,
    saEntries := [], saTermErr := none, caEntryErr := fun _ => none,
    caCloseErr := none, csOpenErr := none, csMetaErr := none,
    caChunks := [], caTermErr := none, csChunkErr := fun _ => none,
    csCloseErr := none }

/-- A concrete environment in which deriving the CRL id fails. -/
def envIdFail : ShardEnv String Nat :=
  { idResult := .error "id failure", saOpenErr := none, caOpenErr := none,
    caMetaErr := none, saEntries := [5], saTermErr := none,
    caEntryErr := fun _ => none, caCloseErr := none, csOpenErr := none,
    csMetaErr := none, caChunks := [[1]], caTermErr := none,
    csChunkErr := fun _ => none, csCloseErr := none }

/-- The error returned by `tickIssuer` for a failing shard:
`fmt.Errorf("updating shard %d: %w", res.shardIdx, res.err)` (line 247). -/
inductive IssuerTickError (E : Type) where
  | updatingShard (shardIdx : Nat) (cause : E)

/-- The result-joining loop of `tickIssuer` (lines 243-251) over the shard
results in the order they arrive on the results channel: the coordinator
consumes results one by one and returns a wrapped error on the first result
whose error is non-nil, `ok` if it drains all results without failure. -/
def tickIssuerJoin {E : Type} : List (Nat × Option E) → Except (IssuerTickError E) Unit
  | [] => .ok ()
  | (idx, some e) :: _ => .error (.updatingShard idx e)
  | (_, none) :: rest => tickIssuerJoin rest

/-- The `lookforwardPeriod` value derived by `NewUpdater` (lines 82-91),
written out without intermediate variables. -/
def derivedLookforward (n cert up : Int) : Int :=
  if Int.tmod (4 * up + (cert + 4 * Int.tdiv (4 * up + cert) n)) n ≠ 0 then
    (cert + 4 * Int.tdiv (4 * up + cert) n) +
      (n - Int.tmod (4 * up + (cert + 4 * Int.tdiv (4 * up + cert) n)) n)
  else cert + 4 * Int.tdiv (4 * up + cert) n

/-- Characterization of a successful `NewUpdater` run: it succeeds exactly when
the three validations pass, and then every field of the resulting updater is
determined by the inputs. -/
lemma newUpdater_ok_iff {n cert up off mp : Int} {cfg : CrlUpdaterConfig} :
    newUpdater n cert up off mp = .ok cfg ↔
      (¬ n < 1 ∧ ¬ (7 * 24 * nsPerHour ≤ up) ∧ ¬ (up ≤ off) ∧
       cfg = ⟨n, 4 * up, derivedLookforward n cert up, up, off,
              if mp ≤ 0 then 1 else mp⟩) := by
  unfold newUpdater derivedLookforward
  split_ifs with h1 h2 h3 <;> simp_all [eq_comm]

/-- Any integer differs from its truncated remainder by a multiple of the divisor. -/
lemma dvd_sub_tmod (a b : Int) : b ∣ (a - Int.tmod a b) :=
  ⟨a.tdiv b, by have := Int.tdiv_add_tmod a b; linarith⟩

/-- After a successful `NewUpdater` run, the derivation in lines 85-91 has made
the total window evenly divisible by the number of shards. -/
lemma newUpdater_ok_dvd {n cert up off mp : Int} {cfg : CrlUpdaterConfig}
    (h : newUpdater n cert up off mp = .ok cfg) :
    cfg.numShards ∣ windowWidth cfg := by
  obtain ⟨-, -, -, hcfg⟩ := newUpdater_ok_iff.mp h
  subst hcfg
  show n ∣ 4 * up + derivedLookforward n cert up
  unfold derivedLookforward
  set lf0 := cert + 4 * Int.tdiv (4 * up + cert) n with hlf0
  set W0 := 4 * up + lf0 with hW0
  split_ifs with ho
  · have heq : 4 * up + (lf0 + (n - Int.tmod W0 n)) = (W0 - Int.tmod W0 n) + n := by
      rw [hW0]; ring
    rw [heq]
    exact dvd_add (dvd_sub_tmod W0 n) dvd_rfl
  · have heq : 4 * up + lf0 = W0 - Int.tmod W0 n := by
      rw [hW0, not_not.mp ho, sub_zero]
    rw [heq]
    exact dvd_sub_tmod W0 n

/-- A positive window evenly divided by the shard count gives a positive,
exact shard width. -/
lemma shardWidth_pos_of (cfg : CrlUpdaterConfig) (hn : 1 ≤ cfg.numShards)
    (hW : 1 ≤ windowWidth cfg) (hdvd : cfg.numShards ∣ windowWidth cfg) :
    1 ≤ shardWidth cfg ∧ cfg.numShards * shardWidth cfg = windowWidth cfg := by
  unfold shardWidth
  have hmul := Int.mul_tdiv_cancel' hdvd
  constructor
  · by_contra hw
    push_neg at hw
    have h2 : cfg.numShards * Int.tdiv (windowWidth cfg) cfg.numShards ≤ cfg.numShards * 0 :=
      mul_le_mul_of_nonneg_left (by omega) (by omega)
    rw [mul_zero, hmul] at h2
    omega
  · exact hmul

/-- The derived lookforward period is positive for spec-valid inputs. -/
lemma derivedLookforward_pos {n cert up : Int} (hn : 1 ≤ n) (hcert : 1 ≤ cert)
    (hup : 1 ≤ up) : 1 ≤ derivedLookforward n cert up := by
  unfold derivedLookforward
  set lf0 := cert + 4 * Int.tdiv (4 * up + cert) n with hlf0
  have htd : 0 ≤ Int.tdiv (4 * up + cert) n :=
    Int.tdiv_nonneg (by omega) (by omega)
  have hlf0pos : 1 ≤ lf0 := by omega
  set W0 := 4 * up + lf0 with hW0
  have hW0pos : 0 ≤ W0 := by omega
  have hmod0 : 0 ≤ Int.tmod W0 n := Int.tmod_nonneg n hW0pos
  have hmodn : Int.tmod W0 n < n := Int.tmod_lt_of_pos W0 (by omega)
  split_ifs with ho <;> omega

/-- Positivity facts about a configuration produced by `NewUpdater` from a
spec-valid input (`certLifetime ≥ 1ns`, `updateOffset ≥ 0`). -/
lemma newUpdater_ok_pos {n cert up off mp : Int} {cfg : CrlUpdaterConfig}
    (h : newUpdater n cert up off mp = .ok cfg)
    (hcert : 1 ≤ cert) (hoff : 0 ≤ off) :
    1 ≤ cfg.numShards ∧ 1 ≤ cfg.lookbackPeriod ∧ 1 ≤ cfg.lookforwardPeriod ∧
      1 ≤ shardWidth cfg ∧ cfg.numShards * shardWidth cfg = windowWidth cfg := by
  obtain ⟨h1, -, h3, hcfg⟩ := newUpdater_ok_iff.mp h
  have hn : 1 ≤ n := by omega
  have hup : 1 ≤ up := by omega
  have hns : cfg.numShards = n := by rw [hcfg]
  have hlbf : cfg.lookbackPeriod = 4 * up := by rw [hcfg]
  have hlff : cfg.lookforwardPeriod = derivedLookforward n cert up := by rw [hcfg]
  have hlf : 1 ≤ derivedLookforward n cert up := derivedLookforward_pos hn hcert hup
  have hW : 1 ≤ windowWidth cfg := by
    unfold windowWidth
    rw [hlbf, hlff]
    omega
  obtain ⟨hsw, hmul⟩ := shardWidth_pos_of cfg (by omega) hW (newUpdater_ok_dvd h)
  exact ⟨by omega, by omega, by omega, hsw, hmul⟩

/-- For a time at or after Go's zero time, the saturating subtraction from the
zero time is non-negative. -/
lemma goSub_zero_nonneg {t : Int} (ht : 0 ≤ t) : 0 ≤ goSub t 0 := by
  unfold goSub maxDuration minDuration
  split_ifs <;> omega

/-- The computed anchor offset is non-negative for times at or after the zero time. -/
lemma atTimeOffset_nonneg (cfg : CrlUpdaterConfig) {t : Int} (ht : 0 ≤ t) :
    0 ≤ atTimeOffset cfg t :=
  Int.tmod_nonneg _ (goSub_zero_nonneg ht)

/-- The computed anchor offset is below the window width. -/
lemma atTimeOffset_lt (cfg : CrlUpdaterConfig) (t : Int) (hW : 0 < windowWidth cfg) :
    atTimeOffset cfg t < windowWidth cfg :=
  Int.tmod_lt_of_pos _ hW

/-- For an in-range shard index, the defensive `shardIdx % numShards` is the identity. -/
lemma preShardStart_eq {cfg : CrlUpdaterConfig} {i : Int} (hi0 : 0 ≤ i)
    (hin : i < cfg.numShards) (t : Int) :
    preShardStart cfg t i = t - atTimeOffset cfg t + i * shardWidth cfg := by
  unfold preShardStart zeroStart
  rw [Int.tmod_eq_of_lt hi0 hin]

/-- The first component of `getShardBoundaries`, with the conditional shift
pushed to the outside. -/
lemma getShardBoundaries_fst (cfg : CrlUpdaterConfig) (t i : Int) :
    (getShardBoundaries cfg t i).1 =
      if preShardEnd cfg t i < t - cfg.lookbackPeriod
      then preShardStart cfg t i + windowWidth cfg else preShardStart cfg t i := by
  unfold getShardBoundaries
  split_ifs <;> rfl

/-- The second component of `getShardBoundaries`, with the conditional shift
pushed to the outside. -/
lemma getShardBoundaries_snd (cfg : CrlUpdaterConfig) (t i : Int) :
    (getShardBoundaries cfg t i).2 =
      if preShardEnd cfg t i < t - cfg.lookbackPeriod
      then preShardEnd cfg t i + windowWidth cfg else preShardEnd cfg t i := by
  unfold getShardBoundaries
  split_ifs <;> rfl

/-- **C2 (amended).** For every configuration derived by `NewUpdater` from a
spec-valid input, every time at or after the zero time, and every shard index
in range: the returned interval always ends at or after the left edge of the
live window; and provided `lookbackPeriod < shardWidth`, it has non-empty
intersection with `[atTime - lookbackPeriod, atTime + lookforwardPeriod)`
unless its end coincides exactly with `atTime - lookbackPeriod` (the computed
chunk abuts the window's left edge and line 457's strict `Before` leaves it
unshifted). -/
theorem c2_window_overlap_amended {n cert up off mp : Int} {cfg : CrlUpdaterConfig}
    (h : newUpdater n cert up off mp = .ok cfg) (hcert : 1 ≤ cert) (hoff : 0 ≤ off)
    {t i : Int} (ht : 0 ≤ t) (hi0 : 0 ≤ i) (hin : i < cfg.numShards) :
    t - cfg.lookbackPeriod ≤ (getShardBoundaries cfg t i).2 ∧
    (cfg.lookbackPeriod < shardWidth cfg →
      (getShardBoundaries cfg t i).2 ≠ t - cfg.lookbackPeriod →
      overlaps (getShardBoundaries cfg t i).1 (getShardBoundaries cfg t i).2
        (t - cfg.lookbackPeriod) (t + cfg.lookforwardPeriod)) := by
  obtain ⟨hn, hlb, hlf, hw, hmul⟩ := newUpdater_ok_pos h hcert hoff
  have hWdef : windowWidth cfg = cfg.lookbackPeriod + cfg.lookforwardPeriod := rfl
  have hWpos : 0 < windowWidth cfg := by linarith
  have hc0 : 0 ≤ atTimeOffset cfg t := atTimeOffset_nonneg cfg ht
  have hcW : atTimeOffset cfg t < windowWidth cfg := atTimeOffset_lt cfg t hWpos
  have hps := preShardStart_eq hi0 hin t
  have hpe : preShardEnd cfg t i
      = t - atTimeOffset cfg t + i * shardWidth cfg + shardWidth cfg := by
    unfold preShardEnd
    rw [hps]
  have hiw0 : 0 ≤ i * shardWidth cfg := mul_nonneg hi0 (by linarith)
  have hiwW : i * shardWidth cfg ≤ windowWidth cfg - shardWidth cfg := by
    have h1 : i * shardWidth cfg ≤ (cfg.numShards - 1) * shardWidth cfg :=
      mul_le_mul_of_nonneg_right (by linarith) (by linarith)
    have h2 : (cfg.numShards - 1) * shardWidth cfg
        = cfg.numShards * shardWidth cfg - shardWidth cfg := by ring
    linarith
  rw [getShardBoundaries_fst, getShardBoundaries_snd]
  split_ifs with hsh
  · constructor
    · linarith
    · intro hlt hne
      unfold overlaps
      simp only [max_lt_iff, lt_min_iff]
      refine ⟨⟨?_, ?_⟩, ?_, ?_⟩ <;> linarith
  · push_neg at hsh
    constructor
    · exact hsh
    · intro hlt hne
      have hstrict : t - cfg.lookbackPeriod < preShardEnd cfg t i :=
        lt_of_le_of_ne hsh (Ne.symm hne)
      unfold overlaps
      simp only [max_lt_iff, lt_min_iff]
      refine ⟨⟨?_, ?_⟩, ?_, ?_⟩ <;> linarith

/-- **C2 counterexample.** The overlap claim as stated fails on the code at two
concrete constructor-valid inputs: (a) scenario-1 configuration at
`atTime = shardWidth + lookbackPeriod`, shard 0, where the returned chunk ends
exactly at the window's left edge and the half-open intervals are disjoint;
(b) a tiny-certificate configuration at `atTime = windowWidth`, shard 9, where
the returned chunk lies entirely beyond the window's right edge. -/
theorem c2_window_overlap_counterexample :
    (newUpdater 10 7776000000000000 3600000000000 0 1 = .ok cfg1 ∧
      ¬ overlaps (getShardBoundaries cfg1 1105056000000000 0).1
          (getShardBoundaries cfg1 1105056000000000 0).2
          (1105056000000000 - cfg1.lookbackPeriod)
          (1105056000000000 + cfg1.lookforwardPeriod)) ∧
    (newUpdater 10 1 3600000000000 0 1 = .ok cfgB ∧
      ¬ overlaps (getShardBoundaries cfgB 20160000000010 9).1
          (getShardBoundaries cfgB 20160000000010 9).2
          (20160000000010 - cfgB.lookbackPeriod)
          (20160000000010 + cfgB.lookforwardPeriod)) :=
  ⟨⟨by rfl, by decide⟩, ⟨by rfl, by decide⟩⟩

/-- **C2 witness.** The amended overlap property at a concrete input
(scenario-1 configuration, `atTime = 0`, shard 0). -/
theorem c2_window_overlap_witness :
    (0 : Int) - cfg1.lookbackPeriod ≤ (getShardBoundaries cfg1 0 0).2 ∧
    (cfg1.lookbackPeriod < shardWidth cfg1 →
      (getShardBoundaries cfg1 0 0).2 ≠ 0 - cfg1.lookbackPeriod →
      overlaps (getShardBoundaries cfg1 0 0).1 (getShardBoundaries cfg1 0 0).2
        (0 - cfg1.lookbackPeriod) (0 + cfg1.lookforwardPeriod)) :=
  @c2_window_overlap_amended 10 7776000000000000 3600000000000 0 1 cfg1
    (by rfl) (by decide) (by decide) 0 0 (by decide) (by decide) (by decide)

/-- **C5 (amended).** For every configuration derived by `NewUpdater` from a
spec-valid input, every time at or after the zero time, and every in-range
shard index whose pre-shift chunk instance ends at or before
`atTime + lookforwardPeriod`: the returned `shardEnd` is at or after
`atTime - lookbackPeriod`, and either `shardStart ≤ atTime - lookbackPeriod`
or the previous instance of the chunk (shift by `-windowWidth`) ends at or
before `atTime - lookbackPeriod`. -/
theorem c5_leftmost_selection_amended {n cert up off mp : Int} {cfg : CrlUpdaterConfig}
    (h : newUpdater n cert up off mp = .ok cfg) (hcert : 1 ≤ cert) (hoff : 0 ≤ off)
    {t i : Int} (ht : 0 ≤ t) (hi0 : 0 ≤ i) (hin : i < cfg.numShards)
    (hpre : preShardEnd cfg t i ≤ t + cfg.lookforwardPeriod) :
    t - cfg.lookbackPeriod ≤ (getShardBoundaries cfg t i).2 ∧
    ((getShardBoundaries cfg t i).1 ≤ t - cfg.lookbackPeriod ∨
      (getShardBoundaries cfg t i).2 - windowWidth cfg ≤ t - cfg.lookbackPeriod) := by
  obtain ⟨hn, hlb, hlf, hw, hmul⟩ := newUpdater_ok_pos h hcert hoff
  have hWdef : windowWidth cfg = cfg.lookbackPeriod + cfg.lookforwardPeriod := rfl
  have hWpos : 0 < windowWidth cfg := by linarith
  have hc0 : 0 ≤ atTimeOffset cfg t := atTimeOffset_nonneg cfg ht
  have hcW : atTimeOffset cfg t < windowWidth cfg := atTimeOffset_lt cfg t hWpos
  have hps := preShardStart_eq hi0 hin t
  have hpe : preShardEnd cfg t i
      = t - atTimeOffset cfg t + i * shardWidth cfg + shardWidth cfg := by
    unfold preShardEnd
    rw [hps]
  have hiw0 : 0 ≤ i * shardWidth cfg := mul_nonneg hi0 (by linarith)
  rw [getShardBoundaries_fst, getShardBoundaries_snd]
  split_ifs with hsh
  · exact ⟨by linarith, Or.inr (by linarith)⟩
  · push_neg at hsh
    exact ⟨hsh, Or.inr (by linarith)⟩

/-- **C5 counterexample.** At the scenario-1 configuration,
`atTime = windowWidth` and shard 9, the pre-shift chunk ends one lookback
period past the window's right edge; the code keeps it, and neither
disjunct of the claim holds: the returned chunk starts after
`atTime - lookbackPeriod` and its previous instance still ends after
`atTime - lookbackPeriod` (so the previous instance also overlaps the window
and the returned chunk is not the leftmost overlapping one). -/
theorem c5_leftmost_selection_counterexample :
    newUpdater 10 7776000000000000 3600000000000 0 1 = .ok cfg1 ∧
    ¬ ((getShardBoundaries cfg1 10906560000000000 9).1
          ≤ 10906560000000000 - cfg1.lookbackPeriod ∨
       (getShardBoundaries cfg1 10906560000000000 9).2 - windowWidth cfg1
          ≤ 10906560000000000 - cfg1.lookbackPeriod) :=
  ⟨by rfl, by decide⟩

/-- **C5 witness.** The amended leftmost-selection property at a concrete
input (scenario-1 configuration, `atTime = 0`, shard 0). -/
theorem c5_leftmost_selection_witness :
    (0 : Int) - cfg1.lookbackPeriod ≤ (getShardBoundaries cfg1 0 0).2 ∧
    ((getShardBoundaries cfg1 0 0).1 ≤ 0 - cfg1.lookbackPeriod ∨
      (getShardBoundaries cfg1 0 0).2 - windowWidth cfg1 ≤ 0 - cfg1.lookbackPeriod) :=
  @c5_leftmost_selection_amended 10 7776000000000000 3600000000000 0 1 cfg1
    (by rfl) (by decide) (by decide) 0 0 (by decide) (by decide) (by decide) (by decide)

/-- **C1.** Shard stability fails on the code for present-day times: at the
scenario-1 configuration and shard 0, for `atTime₁ = 2024-01-01T00:00:00Z`
(63839664000000000000 ns after Go's zero time) and `atTime₂ = atTime₁ + 1h`,
the spec's algorithm (true modular anchoring) selects the same physical chunk
at both times, yet the code's boundaries differ by exactly one hour — not an
integer multiple of `windowWidth` — because `atTime.Sub(time.Time{})` is
saturated at 2^63-1 ns for any time this far from the zero time, so the
anchor offset is a constant and the boundaries drift with `atTime`. -/
theorem c1_shard_stability_violated :
    newUpdater 10 7776000000000000 3600000000000 0 1 = .ok cfg1 ∧
    specShardBoundaries cfg1 63839664000000000000 0 =
      specShardBoundaries cfg1 63839667600000000000 0 ∧
    getShardBoundaries cfg1 63839664000000000000 0 ≠
      getShardBoundaries cfg1 63839667600000000000 0 ∧
    (getShardBoundaries cfg1 63839667600000000000 0).1 -
      (getShardBoundaries cfg1 63839664000000000000 0).1 = 3600000000000 ∧
    ¬ (windowWidth cfg1 ∣ 3600000000000) :=
  ⟨by rfl, by decide, by decide, by decide,
   fun hdvd => absurd (Int.le_of_dvd (by decide) hdvd) (by decide)⟩

/-- **C3.** The epoch-zero anchoring claim fails on the code for present-day
times: at the scenario-1 configuration and
`atTime = 2024-01-01T00:00:00Z` (63839664000000000000 ns after Go's zero
time), the code's `zeroStart` is not `atTime - (atTime_ns mod windowWidth_ns)`;
it is `atTime - ((2^63-1) mod windowWidth_ns)`, because the nanosecond count
of `atTime` since the zero time overflows `time.Duration` and
`atTime.Sub(time.Time{})` saturates. -/
theorem c3_epoch_anchor_violated :
    newUpdater 10 7776000000000000 3600000000000 0 1 = .ok cfg1 ∧
    zeroStart cfg1 63839664000000000000 ≠
      63839664000000000000 - Int.tmod 63839664000000000000 (windowWidth cfg1) ∧
    zeroStart cfg1 63839664000000000000 =
      63839664000000000000 - Int.tmod maxDuration (windowWidth cfg1) :=
  ⟨by rfl, by decide, by decide⟩

/-- **C4.** For every configuration accepted by `NewUpdater`, the total window
`lookbackPeriod + lookforwardPeriod` is an exact multiple of `numShards` in
nanoseconds, `shardWidth × numShards = windowWidth` bit-exactly, and for every
`atTime` and `shardIdx` the interval returned by `getShardBoundaries` has
width exactly `windowWidth / numShards`. -/
theorem c4_exact_shard_width {n cert up off mp : Int} {cfg : CrlUpdaterConfig}
    (h : newUpdater n cert up off mp = .ok cfg) :
    cfg.numShards ∣ windowWidth cfg ∧
    cfg.numShards * shardWidth cfg = windowWidth cfg ∧
    ∀ t i, (getShardBoundaries cfg t i).2 - (getShardBoundaries cfg t i).1
      = shardWidth cfg := by
  refine ⟨newUpdater_ok_dvd h, Int.mul_tdiv_cancel' (newUpdater_ok_dvd h), ?_⟩
  intro t i
  rw [getShardBoundaries_fst, getShardBoundaries_snd]
  unfold preShardEnd
  split_ifs with hsh <;> ring

/-- **C4 witness.** The exact-shard-width property at the concrete scenario-1
configuration. -/
theorem c4_exact_shard_width_witness :
    cfg1.numShards ∣ windowWidth cfg1 ∧
    cfg1.numShards * shardWidth cfg1 = windowWidth cfg1 ∧
    ∀ t i, (getShardBoundaries cfg1 t i).2 - (getShardBoundaries cfg1 t i).1
      = shardWidth cfg1 :=
  @c4_exact_shard_width 10 7776000000000000 3600000000000 0 1 cfg1 (by rfl)


/-- When every CA entry send succeeds, the forward loop sends exactly the
received entries, in order. -/
lemma forwardEntries_all_none {E Entry : Type} (sendErr : Nat → Option E)
    (h : ∀ k, sendErr k = none) (k : Nat) (es : List Entry) :
    forwardEntries sendErr k es = (es.map CAFrame.entry, none) := by
  induction es generalizing k with
  | nil => rfl
  | cons e rest ih => simp [forwardEntries, h, ih]

/-- When every storer chunk send succeeds, the relay loop forwards exactly
the received chunks, in order, accumulating the total length and the
concatenation of the chunk bytes. -/
lemma relayChunks_all_none {E : Type} (sendErr : Nat → Option E)
    (h : ∀ k, sendErr k = none) (k : Nat) (cs : List (List UInt8)) :
    relayChunks sendErr k cs = (cs.map CSFrame.chunk, (cs.map List.length).sum, cs.flatten, none) := by
  induction cs generalizing k with
  | nil => rfl
  | cons c rest ih => simp [relayChunks, h, ih]

/-- Full description of a `tickShard` run in which every stream operation
succeeds. -/
lemma tickShard_success {E Entry : Type} (cfg : CrlUpdaterConfig)
    (env : ShardEnv E Entry) (hs : allOpsSucceed env) (atTime inid sidx : Int) :
    tickShard cfg env atTime inid sidx =
      { result := .ok (), metricsResult := some "success",
        saRequest := some
          { issuerNameID := inid,
            expiresAfter := unixNano (getShardBoundaries cfg atTime sidx).1,
            expiresBefore := unixNano (getShardBoundaries cfg atTime sidx).2,
            revokedBefore := unixNano atTime },
        caOpened := true, csOpened := true,
        caSent := CAFrame.metadata inid (unixNano atTime) sidx
          :: env.saEntries.map CAFrame.entry,
        caClosedSend := true,
        csSent := CSFrame.metadata inid (unixNano atTime) sidx
          :: env.caChunks.map CSFrame.chunk,
        loggedSize := some ((env.caChunks.map List.length).sum),
        loggedHashInput := some env.caChunks.flatten } := by
  obtain ⟨h1, h2, h3, h4, h5, h6, h7, h8, h9, h10, h11, h12⟩ := hs
  unfold tickShard
  rw [h1, h2, h3, h4, h5, h7, h8, h9, h10, h12,
    forwardEntries_all_none env.caEntryErr h6 0 env.saEntries,
    relayChunks_all_none env.csChunkErr h11 0 env.caChunks]

/-- **C6.** Pipeline fidelity: in every `tickShard` run in which all stream
operations succeed, the CA receives exactly one metadata frame followed by
every SA entry, once each and in order; the storer receives its metadata
frame followed by every CA chunk, once each and in order; the logged size is
the sum of the chunk lengths; the bytes fed to the logged SHA-256 hasher are
exactly the concatenation of the chunks (so the logged hash is the SHA-256
of that concatenation); and the run succeeds. -/
theorem c6_pipeline_fidelity {E Entry : Type} (cfg : CrlUpdaterConfig)
    (env : ShardEnv E Entry) (atTime inid sidx : Int) (hs : allOpsSucceed env) :
    (tickShard cfg env atTime inid sidx).caSent
        = CAFrame.metadata inid (unixNano atTime) sidx :: env.saEntries.map CAFrame.entry ∧
    (tickShard cfg env atTime inid sidx).csSent
        = CSFrame.metadata inid (unixNano atTime) sidx :: env.caChunks.map CSFrame.chunk ∧
    (tickShard cfg env atTime inid sidx).loggedSize
        = some ((env.caChunks.map List.length).sum) ∧
    (tickShard cfg env atTime inid sidx).loggedHashInput = some env.caChunks.flatten ∧
    (tickShard cfg env atTime inid sidx).result = .ok () := by
  rw [tickShard_success cfg env hs atTime inid sidx]
  exact ⟨rfl, rfl, rfl, rfl, rfl⟩

/-- **C6 witness.** Pipeline fidelity at a concrete all-success run with two
entries and two chunks. -/
theorem c6_pipeline_fidelity_witness :
    (tickShard cfg1 envSample 63839664000000000000 42 3).caSent
        = CAFrame.metadata 42 (unixNano 63839664000000000000) 3
          :: envSample.saEntries.map CAFrame.entry ∧
    (tickShard cfg1 envSample 63839664000000000000 42 3).csSent
        = CSFrame.metadata 42 (unixNano 63839664000000000000) 3
          :: envSample.caChunks.map CSFrame.chunk ∧
    (tickShard cfg1 envSample 63839664000000000000 42 3).loggedSize
        = some ((envSample.caChunks.map List.length).sum) ∧
    (tickShard cfg1 envSample 63839664000000000000 42 3).loggedHashInput
        = some envSample.caChunks.flatten ∧
    (tickShard cfg1 envSample 63839664000000000000 42 3).result = .ok () :=
  c6_pipeline_fidelity cfg1 envSample 63839664000000000000 42 3
    ⟨rfl, rfl, rfl, rfl, rfl, fun _ => rfl, rfl, rfl, rfl, rfl, fun _ => rfl, rfl⟩

/-- **C7.** Construction validation: `NewUpdater` returns an error exactly
when `numShards < 1`, or `updatePeriod ≥ 168h`, or
`updateOffset ≥ updatePeriod`; on success `maxParallelism ≤ 0` is silently
coerced to 1; `updatePeriod = 7×24h` is rejected, `updatePeriod = 7×24h-1ns`
is accepted, `updateOffset = updatePeriod` is rejected, and a negative
`maxParallelism` yields an updater with `maxParallelism = 1`. -/
theorem c7_construction_validation :
    (∀ n cert up off mp : Int,
      (∃ msg, newUpdater n cert up off mp = .error msg) ↔
        (n < 1 ∨ 7 * 24 * nsPerHour ≤ up ∨ up ≤ off)) ∧
    (∀ n cert up off mp : Int, ∀ cfg : CrlUpdaterConfig,
      newUpdater n cert up off mp = .ok cfg →
        cfg.maxParallelism = if mp ≤ 0 then 1 else mp) ∧
    (∃ msg, newUpdater 1 1 604800000000000 0 1 = .error msg) ∧
    (∃ cfg, newUpdater 1 1 604799999999999 0 1 = .ok cfg) ∧
    (∃ msg, newUpdater 1 1 3600000000000 3600000000000 1 = .error msg) ∧
    newUpdater 1 1 3600000000000 0 (-5) =
      .ok ⟨1, 14400000000000, 57600000000005, 3600000000000, 0, 1⟩ := by
  refine ⟨?_, ?_, ⟨_, by rfl⟩, ⟨_, by rfl⟩, ⟨_, by rfl⟩, by rfl⟩
  · intro n cert up off mp
    unfold newUpdater
    split_ifs with h1 h2 h3 <;> simp_all
  · intro n cert up off mp cfg h
    obtain ⟨-, -, -, hcfg⟩ := newUpdater_ok_iff.mp h
    rw [hcfg]

/-- **C7 witness.** The maxParallelism coercion at a concrete accepted input
with `maxParallelism = -5`. -/
theorem c7_construction_validation_witness :
    (⟨1, 14400000000000, 57600000000005, 3600000000000, 0, 1⟩ :
        CrlUpdaterConfig).maxParallelism = if (-5 : Int) ≤ 0 then 1 else -5 :=
  c7_construction_validation.2.1 1 1 3600000000000 0 (-5) _ (by rfl)

/-- **C8.** First-failure error surfacing: consuming the shard results in
completion order, `tickIssuer` returns `"updating shard <idx>: <cause>"` for
the first received result carrying an error — regardless of any results that
would arrive later, and regardless of whether a lower shard index fails later
— and returns nil when all results carry nil errors. -/
theorem c8_first_failure_surfacing (E : Type) :
    (∀ (pre post : List (Nat × Option E)) (i : Nat) (e : E),
      (∀ x ∈ pre, x.2 = none) →
      tickIssuerJoin (pre ++ (i, some e) :: post) = .error (.updatingShard i e)) ∧
    (∀ rs : List (Nat × Option E), (∀ x ∈ rs, x.2 = none) →
      tickIssuerJoin rs = .ok ()) := by
  constructor
  · intro pre post i e hpre
    induction pre with
    | nil => rfl
    | cons x rest ih =>
      obtain ⟨x1, x2⟩ := x
      have hx : x2 = none := hpre (x1, x2) (List.mem_cons_self _ _)
      subst hx
      exact ih fun y hy => hpre y (List.mem_cons_of_mem _ hy)
  · intro rs hrs
    induction rs with
    | nil => rfl
    | cons x rest ih =>
      obtain ⟨x1, x2⟩ := x
      have hx : x2 = none := hrs (x1, x2) (List.mem_cons_self _ _)
      subst hx
      exact ih fun y hy => hrs y (List.mem_cons_of_mem _ hy)

/-- **C8 witness.** A concrete completion order in which shard 2's failure
arrives before shard 1's: the reported index is 2, the first received
failure, not the lowest failing index; and an all-nil result list yields
nil. -/
theorem c8_first_failure_surfacing_witness :
    tickIssuerJoin [(0, none), (2, some "boom"), (1, some "later")]
      = .error (.updatingShard 2 "boom") ∧
    tickIssuerJoin ([(0, none), (1, none)] : List (Nat × Option String)) = .ok () :=
  ⟨(c8_first_failure_surfacing String).1 [(0, none)] [(1, some "later")] 2 "boom"
      (by simp),
   (c8_first_failure_surfacing String).2 [(0, none), (1, none)] (by simp)⟩

/-- **C9.** Empty revocation set: when the SA stream yields end-of-stream
before any entry and all remaining stream operations succeed, `tickShard`
still sends exactly one metadata frame to the CA, half-closes the CA send
side, opens the storer stream and sends its metadata frame, and returns nil;
in particular when the CA also returns zero chunks, a CRL of logged length 0
is uploaded and success is reported. -/
theorem c9_empty_revocation_set {E Entry : Type} (cfg : CrlUpdaterConfig)
    (env : ShardEnv E Entry) (atTime inid sidx : Int)
    (hs : allOpsSucceed env) (hempty : env.saEntries = []) :
    (tickShard cfg env atTime inid sidx).caSent
        = [CAFrame.metadata inid (unixNano atTime) sidx] ∧
    (tickShard cfg env atTime inid sidx).caClosedSend = true ∧
    (tickShard cfg env atTime inid sidx).csOpened = true ∧
    (tickShard cfg env atTime inid sidx).csSent
        = CSFrame.metadata inid (unixNano atTime) sidx :: env.caChunks.map CSFrame.chunk ∧
    (tickShard cfg env atTime inid sidx).result = .ok () ∧
    (env.caChunks = [] → (tickShard cfg env atTime inid sidx).loggedSize = some 0) := by
  rw [tickShard_success cfg env hs atTime inid sidx]
  refine ⟨by rw [hempty]; rfl, rfl, rfl, rfl, rfl, ?_⟩
  intro hc
  rw [hc]
  rfl

/-- **C9 witness.** The empty-revocation-set behavior at a concrete run with
no entries and no chunks. -/
theorem c9_empty_revocation_set_witness :
    (tickShard cfg1 envEmpty 63839664000000000000 42 3).caSent
        = [CAFrame.metadata 42 (unixNano 63839664000000000000) 3] ∧
    (tickShard cfg1 envEmpty 63839664000000000000 42 3).caClosedSend = true ∧
    (tickShard cfg1 envEmpty 63839664000000000000 42 3).csOpened = true ∧
    (tickShard cfg1 envEmpty 63839664000000000000 42 3).csSent
        = CSFrame.metadata 42 (unixNano 63839664000000000000) 3
          :: envEmpty.caChunks.map CSFrame.chunk ∧
    (tickShard cfg1 envEmpty 63839664000000000000 42 3).result = .ok () ∧
    (envEmpty.caChunks = [] →
      (tickShard cfg1 envEmpty 63839664000000000000 42 3).loggedSize = some 0) :=
  c9_empty_revocation_set cfg1 envEmpty 63839664000000000000 42 3
    ⟨rfl, rfl, rfl, rfl, rfl, fun _ => rfl, rfl, rfl, rfl, rfl, fun _ => rfl, rfl⟩ rfl

/-- **C10.** When deriving the CRL id fails, `tickShard` returns that error
verbatim, issues no SA, CA, or storer RPC, sends no frames, and records no
metrics — the deferred histogram observation and counter increment are
installed only after id derivation succeeds. -/
theorem c10_id_failure_frame {E Entry : Type} (cfg : CrlUpdaterConfig)
    (env : ShardEnv E Entry) (atTime inid sidx : Int) (e : E)
    (hid : env.idResult = .error e) :
    tickShard cfg env atTime inid sidx =
      { result := .error (.raw e), metricsResult := none, saRequest := none,
        caOpened := false, csOpened := false, caSent := [], caClosedSend := false,
        csSent := [], loggedSize := none, loggedHashInput := none } := by
  unfold tickShard
  rw [hid]

/-- **C10 witness.** The id-failure behavior at a concrete run. -/
theorem c10_id_failure_frame_witness :
    tickShard cfg1 envIdFail 63839664000000000000 42 3 =
      { result := .error (.raw "id failure"), metricsResult := none,
        saRequest := none, caOpened := false, csOpened := false, caSent := [],
        caClosedSend := false, csSent := [], loggedSize := none,
        loggedHashInput := none } :=
  c10_id_failure_frame cfg1 envIdFail 63839664000000000000 42 3 "id failure" rfl
